import Mathlib

/-!
# Verification of the shoplinno backend (two source variants)

Shallow embedding of the two Express/Supabase source variants of the
shoplinno backend:

* variant **Ix** — `src/index.js`
* variant **P0** — `src/unnamed/part_000`

The embedding models:

* the JavaScript `Date` calendar arithmetic used by the subscription-term
  calculation (`setMonth` / `setFullYear` with day-overflow normalization),
* the Supabase client as an external collaborator whose successive calls
  either succeed, return an `{error}` result, or raise an exception,
  driven by an explicit schedule,
* each route handler as a pure function from (request, current time,
  generated id, environment) to (HTTP response, environment).

Handlers are transcribed from the source line by line; no branch is
simplified away.
-/

namespace Shoplinno

/-! ## Calendar model (JavaScript `Date` fields)

A date is represented by its calendar fields: `year`, `month` (0-based,
as in JS `getMonth`), `day` (1-based).  The intra-day time component is
copied unchanged by `setMonth`/`setFullYear` in JS, so it is irrelevant
to every claim and omitted.  -/

structure JSDate where
  year : Nat
  month : Nat
  day : Nat
deriving DecidableEq, Repr

/-- Gregorian leap-year rule (as implemented by JS `Date`). -/
def isLeap (y : Nat) : Bool :=
  (y % 4 == 0 && y % 100 != 0) || y % 400 == 0

/-- Days in month `m` (0-based) of year `y`. -/
def daysInMonth (y m : Nat) : Nat :=
  if m = 1 then (if isLeap y then 29 else 28)
  else if m = 3 ∨ m = 5 ∨ m = 8 ∨ m = 10 then 30
  else 31

/-- Normalize an overflowing month field into the year, as JS `Date` does. -/
def normMonth (y m : Nat) : Nat × Nat := (y + m / 12, m % 12)

/-- JS `Date` field normalization for a possibly overflowing month field
and a day field that exceeds the target month's length by at most one
month's worth of days (which is all that `setMonth`/`setFullYear` on a
valid date can produce: a valid day is ≤ 31 and every month has ≥ 28
days). -/
def normalize (y m d : Nat) : JSDate :=
  let ym := normMonth y m
  if d ≤ daysInMonth ym.1 ym.2 then ⟨ym.1, ym.2, d⟩
  else
    let d' := d - daysInMonth ym.1 ym.2
    let ym' := normMonth ym.1 (ym.2 + 1)
    ⟨ym'.1, ym'.2, d'⟩

/-- `d.setMonth(d.getMonth() + k)` on a JS `Date`. -/
def addMonths (d : JSDate) (k : Nat) : JSDate :=
  normalize d.year (d.month + k) d.day

/-- `d.setFullYear(d.getFullYear() + k)` on a JS `Date`. -/
def addYears (d : JSDate) (k : Nat) : JSDate :=
  normalize (d.year + k) d.month d.day

/-- Chronological rank of a date.  On calendar dates (day ≤ 31) this is a
strictly monotone embedding of the date order, since `32 > 31` dominates
any day field. -/
def dateVal (d : JSDate) : Nat := (d.year * 12 + d.month) * 32 + d.day

theorem daysInMonth_le (y m : Nat) : daysInMonth y m ≤ 31 := by
  unfold daysInMonth
  split
  · split <;> omega
  · split <;> omega

theorem normMonth_idx (y m : Nat) : (normMonth y m).1 * 12 + (normMonth y m).2 = y * 12 + m := by
  unfold normMonth
  simp only
  omega

/-- Core monotonicity fact: renormalizing with a strictly larger month
index strictly increases the chronological rank, for every day field. -/
theorem dateVal_normalize_gt (y m d y2 m2 : Nat) (h : y * 12 + m < y2 * 12 + m2) :
    dateVal ⟨y, m, d⟩ < dateVal (normalize y2 m2 d) := by
  have h1 := normMonth_idx y2 m2
  have h2 := normMonth_idx (normMonth y2 m2).1 ((normMonth y2 m2).2 + 1)
  have h3 := daysInMonth_le (normMonth y2 m2).1 (normMonth y2 m2).2
  by_cases hd : d ≤ daysInMonth (normMonth y2 m2).1 (normMonth y2 m2).2
  · simp only [normalize, dateVal, hd, if_true, if_pos]
    omega
  · simp only [normalize, dateVal, hd, if_false, if_neg, not_false_iff]
    omega

theorem dateVal_addMonths_gt (d : JSDate) (k : Nat) (hk : 1 ≤ k) :
    dateVal d < dateVal (addMonths d k) := by
  unfold addMonths
  exact dateVal_normalize_gt d.year d.month d.day d.year (d.month + k) (by omega)

theorem dateVal_addYears_gt (d : JSDate) (k : Nat) (hk : 1 ≤ k) :
    dateVal d < dateVal (addYears d k) := by
  unfold addYears
  exact dateVal_normalize_gt d.year d.month d.day (d.year + k) d.month (by omega)

/-- Date part of JS `toISOString` (`YYYY-MM-DD`, month rendered 1-based).
The source stores `startDate.toISOString()` etc.; the intra-day time part
is not modelled (see `JSDate`). -/
def pad2 (n : Nat) : String := if n < 10 then "0" ++ toString n else toString n

def isoDate (d : JSDate) : String :=
  toString d.year ++ "-" ++ pad2 (d.month + 1) ++ "-" ++ pad2 d.day

/-! ## JSON values and HTTP responses -/

inductive JsValue where
  | str (s : String)
  | bool (b : Bool)
  | num (n : Nat)
  | obj (fields : List (String × JsValue))
  | arr (items : List JsValue)

/-- First field of a JSON object with the given key, if any. -/
def JsValue.field (v : JsValue) (key : String) : Option JsValue :=
  match v with
  | .obj fs => (fs.find? (fun p => p.1 = key)).map Prod.snd
  | _ => none

/-- An Express response: `res.json(body)` is status 200; `res.status(s).json(body)`
is status `s`. -/
structure HttpResponse where
  status : Nat
  body : JsValue

def jsonOk (body : JsValue) : HttpResponse := ⟨200, body⟩

/-! ## Database model

The Supabase client is an external collaborator.  Each successive call
(`insert` or `select`) consumes one entry of an explicit result
schedule: `ok` (the operation succeeds and commits), `err m` (the client
resolves with `{error}` carrying message `m`; nothing is committed), or
`raise m` (the awaited promise rejects — an exception with message `m`
propagates to the handler's `catch`).  An exhausted schedule means
success. -/

inductive DbResult where
  | ok
  | err (m : String)
  | raise (m : String)
deriving DecidableEq, Repr

structure PlanRow where
  id : String
  name : String
  price : Nat
  features : String
deriving DecidableEq, Repr

structure SubscriptionRow where
  user_id : String
  plan_id : String
  start_date : JSDate
  end_date : JSDate
  status : String
deriving DecidableEq, Repr

structure MessageRow where
  user_id : String
  subject : String
  message : String
  type : Option String
  created_at : Option JSDate
deriving DecidableEq, Repr

structure ContactMessageRow where
  name : String
  email : String
  message : String
deriving DecidableEq, Repr

structure Db where
  plans : List PlanRow
  subscriptions : List SubscriptionRow
  messages : List MessageRow
  contact_messages : List ContactMessageRow
deriving DecidableEq, Repr

/-- Environment threaded through a handler: database contents, the
schedule of results of the successive client calls, and how many client
calls have been made. -/
structure Env where
  db : Db
  schedule : List DbResult
  calls : Nat
deriving DecidableEq, Repr

/-- Outcome of one awaited Supabase call, as seen by the handler. -/
inductive CallOutcome where
  | ok
  | err (m : String)
  | raised (m : String)
deriving DecidableEq, Repr

/-- Perform one database call: consume one schedule entry, count the
call, and commit `commit` to the database only on success. -/
def dbCall (e : Env) (commit : Db → Db) : CallOutcome × Env :=
  match e.schedule with
  | [] => (.ok, { e with db := commit e.db, calls := e.calls + 1 })
  | r :: rest =>
    match r with
    | .ok => (.ok, { db := commit e.db, schedule := rest, calls := e.calls + 1 })
    | .err m => (.err m, { db := e.db, schedule := rest, calls := e.calls + 1 })
    | .raise m => (.raised m, { db := e.db, schedule := rest, calls := e.calls + 1 })

def Db.insertSubscription (r : SubscriptionRow) (db : Db) : Db :=
  { db with subscriptions := db.subscriptions ++ [r] }

def Db.insertMessage (r : MessageRow) (db : Db) : Db :=
  { db with messages := db.messages ++ [r] }

def Db.insertContactMessage (r : ContactMessageRow) (db : Db) : Db :=
  { db with contact_messages := db.contact_messages ++ [r] }

/-! ## Request bodies

JavaScript truthiness on strings: `""`, `null` and `undefined` are all
falsy, so an absent string field is modelled by `""`.  `customer_info`
is an object or absent, hence `Option`. -/

structure CustomerInfo where
  fullname : String
  email : String
  phone : String
deriving DecidableEq, Repr

structure SubscribeRequest where
  user_id : String
  plan_id : String
  payment_method : String
  customer_info : Option CustomerInfo
deriving DecidableEq, Repr

structure ContactRequest where
  name : String
  email : String
  message : String
deriving DecidableEq, Repr

/-- `customer_info?.fullname` under JS optional chaining: `undefined`
(falsy, modelled `""`) when `customer_info` is absent. -/
def ciFullname : Option CustomerInfo → String
  | none => ""
  | some c => c.fullname

def ciEmail : Option CustomerInfo → String
  | none => ""
  | some c => c.email

def ciPhone : Option CustomerInfo → String
  | none => ""
  | some c => c.phone

/-! ## Email pattern of `src/index.js`

`/^[^\s@]+@[^\s@]+\.[^\s@]+$/` as a DFA over the string's characters.
States: 0 start; 1 inside local part (≥ 1 char seen); 2 just after `@`;
3 in domain, no internal dot qualifies yet; 4 just consumed a dot that
has ≥ 1 domain char before it; 5 accepting (some internal dot has chars
on both sides); 6 dead.  `[^\s@]` (any char that is neither whitespace
nor `@`, dots included) is the alphabet of states 1–5; whitespace or a
second `@` kills the match.  The `\s` class is modelled by its ASCII
members plus NBSP, which covers every string the claims mention. -/

def jsWhitespace (c : Char) : Bool :=
  c = ' ' || c = '\t' || c = '\n' || c = '\r' || c.toNat = 11 || c.toNat = 12 || c.toNat = 160

def emailStep (s : Nat) (c : Char) : Nat :=
  if jsWhitespace c then 6
  else if c = '@' then (if s = 1 then 2 else 6)
  else if c = '.' then
    (if s = 0 ∨ s = 1 then 1
     else if s = 2 then 3
     else if s = 3 then 4
     else if s = 4 ∨ s = 5 then 5
     else 6)
  else
    (if s = 0 ∨ s = 1 then 1
     else if s = 2 ∨ s = 3 then 3
     else if s = 4 ∨ s = 5 then 5
     else 6)

/-- `emailRegex.test(email)` of `src/index.js`. -/
def emailTest (em : String) : Bool := em.data.foldl emailStep 0 == 5

/-! ## Subscription-term calculators -/

/-- Term calculation of `src/index.js` `POST /subscribe` (lines 149–155):
`startDate = new Date()`, `endDate = new Date(startDate)`, then an
if/else-if chain whose final `else` silently applies the monthly rule. -/
def subscribeTerm_Ix (plan_id : String) (now : JSDate) : JSDate × JSDate :=
  (now,
    if plan_id = "monthly" then addMonths now 1
    else if plan_id = "2months" then addMonths now 2
    else if plan_id = "annual" then addYears now 1
    else addMonths now 1)

/-- Term calculation of `src/unnamed/part_000` `POST /subscribe`
(lines 80–98): a `switch` on `plan_id` (successive equality tests) whose
`default` rejects with "Invalid plan" (modelled as `none`). -/
def subscribeTerm_P0 (plan_id : String) (now : JSDate) : Option (JSDate × JSDate) :=
  if plan_id = "monthly" then some (now, addMonths now 1)
  else if plan_id = "2months" then some (now, addMonths now 2)
  else if plan_id = "annual" then some (now, addYears now 1)
  else none

/-! ## Route handlers, variant Ix (`src/index.js`) -/

/-- `POST /subscribe` of `src/index.js` (lines 141–184).  Both inserts
are awaited unconditionally before either error flag is inspected; the
`catch` block responds `500` with `{error: err.message}`. -/
def subscribe_Ix (req : SubscribeRequest) (now : JSDate) (e : Env) : HttpResponse × Env :=
  match req.customer_info with
  | none => (⟨400, .obj [("error", .str "Customer info missing")]⟩, e)
  | some ci =>
    let term := subscribeTerm_Ix req.plan_id now
    let subRow : SubscriptionRow :=
      ⟨req.user_id, req.plan_id, term.1, term.2, "active"⟩
    let call1 := dbCall e (Db.insertSubscription subRow)
    match call1.1 with
    | .raised m => (⟨500, .obj [("error", .str m)]⟩, call1.2)
    | r1 =>
      let msgRow : MessageRow :=
        ⟨req.user_id, "New IPTV Subscription - " ++ ci.email,
          "Name: " ++ ci.fullname ++ "\nEmail: " ++ ci.email ++ "\nPhone: " ++
            (if ci.phone = "" then "N/A" else ci.phone) ++ "\nPlan: " ++ req.plan_id ++
            "\nPayment: " ++ req.payment_method,
          none, none⟩
      let call2 := dbCall call1.2 (Db.insertMessage msgRow)
      match call2.1 with
      | .raised m => (⟨500, .obj [("error", .str m)]⟩, call2.2)
      | .err _ =>
        (⟨500, .obj [("error", .str "Failed to save data to database.")]⟩, call2.2)
      | .ok =>
        match r1 with
        | .err _ =>
          (⟨500, .obj [("error", .str "Failed to save data to database.")]⟩, call2.2)
        | _ => (jsonOk (.obj [("success", .bool true), ("saved_to_db", .bool true)]), call2.2)

/-- `POST /contact` of `src/index.js` (lines 74–138).  `genId` is the
tracking id generated by `` `contact_${Date.now()}_${Math.random()…}` ``.
Both 500 paths use generic messages. -/
def contact_Ix (req : ContactRequest) (genId : String) (now : JSDate) (e : Env) :
    HttpResponse × Env :=
  if req.name = "" ∨ req.email = "" ∨ req.message = "" then
    (⟨400, .obj [("success", .bool false),
        ("error", .str "All fields are required: name, email, message")]⟩, e)
  else if emailTest req.email = false then
    (⟨400, .obj [("success", .bool false), ("error", .str "Invalid email format")]⟩, e)
  else
    let row : MessageRow :=
      ⟨genId, "Contact Form: " ++ req.name,
        "Name: " ++ req.name ++ "\nEmail: " ++ req.email ++ "\n\nMessage:\n" ++ req.message,
        some "contact_form", some now⟩
    let call := dbCall e (Db.insertMessage row)
    match call.1 with
    | .err _ =>
      (⟨500, .obj [("success", .bool false),
          ("error", .str "Failed to save contact message to database")]⟩, call.2)
    | .raised _ =>
      (⟨500, .obj [("success", .bool false),
          ("error", .str "Server error processing contact form")]⟩, call.2)
    | .ok =>
      (jsonOk (.obj [("success", .bool true),
        ("message", .str "Contact message received successfully"),
        ("data", .obj [("name", .str req.name), ("email", .str req.email),
          ("messageId", .str genId), ("timestamp", .str (isoDate now))])]), call.2)

def planJson (p : PlanRow) : JsValue :=
  .obj [("id", .str p.id), ("name", .str p.name), ("price", .num p.price),
    ("features", .str p.features)]

/-- `GET /plans` of `src/index.js` (lines 47–63).  The `.order("price",
{ascending:true})` sort is performed by the external store, modelled by
insertion sort on `price`; an `{error}` result gets the generic message,
while a raised exception reaches the `catch` block, which responds
`{error: err.message}`. -/
def plans_Ix (e : Env) : HttpResponse × Env :=
  let call := dbCall e (fun db => db)
  match call.1 with
  | .err _ => (⟨500, .obj [("error", .str "Could not fetch plans.")]⟩, call.2)
  | .raised m => (⟨500, .obj [("error", .str m)]⟩, call.2)
  | .ok =>
    (jsonOk (.obj [("success", .bool true),
      ("plans", .arr ((call.2.db.plans.insertionSort
        (fun a b => a.price ≤ b.price)).map planJson))]), call.2)

/-- `GET /health` of `src/index.js` (lines 66–71): no database call. -/
def health_Ix (now : JSDate) (e : Env) : HttpResponse × Env :=
  (jsonOk (.obj [("status", .str "OK"), ("server_time", .str (isoDate now))]), e)

/-! ## Route handlers, variant P0 (`src/unnamed/part_000`) -/

/-- `POST /subscribe` of `src/unnamed/part_000` (lines 69–145).  Full
field validation, `switch` with rejecting `default`, `user_id =
crypto.randomUUID()` (passed in as `uuid`), `throw` on either insert
error, and a single generic `catch`. -/
def subscribe_P0 (req : SubscribeRequest) (now : JSDate) (uuid : String) (e : Env) :
    HttpResponse × Env :=
  if req.plan_id = "" ∨ ciFullname req.customer_info = "" ∨ ciEmail req.customer_info = "" then
    (⟨400, .obj [("success", .bool false), ("error", .str "Missing required fields")]⟩, e)
  else
    match subscribeTerm_P0 req.plan_id now with
    | none => (⟨400, .obj [("success", .bool false), ("error", .str "Invalid plan")]⟩, e)
    | some term =>
      let subRow : SubscriptionRow := ⟨uuid, req.plan_id, term.1, term.2, "active"⟩
      let call1 := dbCall e (Db.insertSubscription subRow)
      match call1.1 with
      | .ok =>
        let msgRow : MessageRow :=
          ⟨uuid, "New IPTV Subscription",
            "Name: " ++ ciFullname req.customer_info ++ "\nEmail: " ++
              ciEmail req.customer_info ++ "\nPhone: " ++
              (if ciPhone req.customer_info = "" then "N/A" else ciPhone req.customer_info) ++
              "\nPlan: " ++ req.plan_id,
            none, none⟩
        let call2 := dbCall call1.2 (Db.insertMessage msgRow)
        match call2.1 with
        | .ok =>
          (jsonOk (.obj [("success", .bool true),
            ("subscription", .obj [("plan", .str req.plan_id),
              ("start_date", .str (isoDate term.1)),
              ("end_date", .str (isoDate term.2))])]), call2.2)
        | _ =>
          (⟨500, .obj [("success", .bool false), ("error", .str "Subscription failed")]⟩,
            call2.2)
      | _ =>
        (⟨500, .obj [("success", .bool false), ("error", .str "Subscription failed")]⟩,
          call1.2)

/-- `POST /contact` of `src/unnamed/part_000` (lines 148–174): presence
validation only — no email-format check — then a single insert into
`contact_messages`. -/
def contact_P0 (req : ContactRequest) (e : Env) : HttpResponse × Env :=
  if req.name = "" ∨ req.email = "" ∨ req.message = "" then
    (⟨400, .obj [("success", .bool false), ("error", .str "Missing fields")]⟩, e)
  else
    let call := dbCall e (Db.insertContactMessage ⟨req.name, req.email, req.message⟩)
    match call.1 with
    | .ok => (jsonOk (.obj [("success", .bool true)]), call.2)
    | _ =>
      (⟨500, .obj [("success", .bool false), ("error", .str "Unable to send message")]⟩,
        call.2)

/-- `GET /health` of `src/unnamed/part_000` (lines 47–49): identical to
the Ix variant, no database call. -/
def health_P0 (now : JSDate) (e : Env) : HttpResponse × Env :=
  (jsonOk (.obj [("status", .str "OK"), ("server_time", .str (isoDate now))]), e)

/-! ## Helper lemmas -/

theorem subscribeTerm_P0_eq_none (p : String) (now : JSDate)
    (h1 : p ≠ "monthly") (h2 : p ≠ "2months") (h3 : p ≠ "annual") :
    subscribeTerm_P0 p now = none := by
  simp [subscribeTerm_P0, h1, h2, h3]

/-- On a plan the P0 `switch` accepts, the Ix if/else chain computes the
same term. -/
theorem term_Ix_of_P0 (p : String) (now : JSDate) (t : JSDate × JSDate)
    (h : subscribeTerm_P0 p now = some t) : subscribeTerm_Ix p now = t := by
  by_cases h1 : p = "monthly"
  · subst h1
    simp [subscribeTerm_P0] at h
    simp [subscribeTerm_Ix, ← h]
  · by_cases h2 : p = "2months"
    · subst h2
      simp [subscribeTerm_P0] at h
      simp [subscribeTerm_Ix, ← h]
    · by_cases h3 : p = "annual"
      · subst h3
        simp [subscribeTerm_P0] at h
        simp [subscribeTerm_Ix, ← h]
      · rw [subscribeTerm_P0_eq_none p now h1 h2 h3] at h
        exact absurd h (by simp)

/-! ## Claim theorems -/

/-- **C1**: for every subscribe request whose `plan_id` is `"monthly"`,
`"2months"` or `"annual"`, both variants compute the same subscription
term: `start_date` is the current time, and `end_date` is `start_date`
plus exactly one calendar month, two calendar months, or one calendar
year respectively, under the JS `Date` rollover rule (`addMonths` /
`addYears`). -/
theorem subscribe_term_valid_plans (p : String) (now : JSDate)
    (hp : p = "monthly" ∨ p = "2months" ∨ p = "annual") :
    subscribeTerm_P0 p now = some (subscribeTerm_Ix p now) ∧
    (subscribeTerm_Ix p now).1 = now ∧
    (p = "monthly" → (subscribeTerm_Ix p now).2 = addMonths now 1) ∧
    (p = "2months" → (subscribeTerm_Ix p now).2 = addMonths now 2) ∧
    (p = "annual" → (subscribeTerm_Ix p now).2 = addYears now 1) := by
  rcases hp with h | h | h <;> subst h <;>
    refine ⟨rfl, rfl, ?_, ?_, ?_⟩ <;> intro h <;>
    first
      | rfl
      | exact absurd h (by decide)

/-- Witness for `subscribe_term_valid_plans` at `plan_id = "monthly"`,
`now =` 2024-01-31. -/
theorem subscribe_term_valid_plans_witness :
    subscribeTerm_P0 "monthly" ⟨2024, 0, 31⟩ =
      some (subscribeTerm_Ix "monthly" ⟨2024, 0, 31⟩) ∧
    (subscribeTerm_Ix "monthly" ⟨2024, 0, 31⟩).1 = ⟨2024, 0, 31⟩ ∧
    ("monthly" = "monthly" →
      (subscribeTerm_Ix "monthly" ⟨2024, 0, 31⟩).2 = addMonths ⟨2024, 0, 31⟩ 1) ∧
    ("monthly" = "2months" →
      (subscribeTerm_Ix "monthly" ⟨2024, 0, 31⟩).2 = addMonths ⟨2024, 0, 31⟩ 2) ∧
    ("monthly" = "annual" →
      (subscribeTerm_Ix "monthly" ⟨2024, 0, 31⟩).2 = addYears ⟨2024, 0, 31⟩ 1) :=
  subscribe_term_valid_plans "monthly" ⟨2024, 0, 31⟩ (Or.inl rfl)

/-- **C9**: every subscription created by either variant's subscribe
handler has `end_date` strictly after `start_date` (in chronological
rank `dateVal`), and the persisted `(start_date, end_date)` pair is the
value of the pure term calculator on `(plan_id, now)` alone — hence a
deterministic function of `plan_id` and `start_date`, independent of
every other request field, the generated id, and the database state. -/
theorem subscription_dates_strict_and_deterministic :
    (∀ p now, dateVal now < dateVal (subscribeTerm_Ix p now).2) ∧
    (∀ p now t, subscribeTerm_P0 p now = some t → dateVal t.1 < dateVal t.2) ∧
    (∀ req ci now e, req.customer_info = some ci → e.schedule = [] →
      e.db.subscriptions = [] →
      (subscribe_Ix req now e).2.db.subscriptions =
        [⟨req.user_id, req.plan_id, now, (subscribeTerm_Ix req.plan_id now).2, "active"⟩]) ∧
    (∀ req now uuid e t, subscribeTerm_P0 req.plan_id now = some t →
      ¬ (req.plan_id = "" ∨ ciFullname req.customer_info = "" ∨
          ciEmail req.customer_info = "") →
      e.schedule = [] → e.db.subscriptions = [] →
      (subscribe_P0 req now uuid e).2.db.subscriptions =
        [⟨uuid, req.plan_id, t.1, t.2, "active"⟩]) := by
  refine ⟨?_, ?_, ?_, ?_⟩
  · intro p now
    unfold subscribeTerm_Ix
    simp only
    split_ifs
    · exact dateVal_addMonths_gt now 1 (by omega)
    · exact dateVal_addMonths_gt now 2 (by omega)
    · exact dateVal_addYears_gt now 1 (by omega)
    · exact dateVal_addMonths_gt now 1 (by omega)
  · intro p now t h
    unfold subscribeTerm_P0 at h
    split_ifs at h
    · rw [Option.some.injEq] at h
      subst h
      exact dateVal_addMonths_gt now 1 (by omega)
    · rw [Option.some.injEq] at h
      subst h
      exact dateVal_addMonths_gt now 2 (by omega)
    · rw [Option.some.injEq] at h
      subst h
      exact dateVal_addYears_gt now 1 (by omega)
  · intro req ci now e hci hs hdb
    simp [subscribe_Ix, hci, dbCall, hs, Db.insertSubscription, Db.insertMessage, hdb,
      subscribeTerm_Ix]
  · intro req now uuid e t ht hv hs hdb
    rw [subscribe_P0, if_neg hv, ht]
    simp [dbCall, hs, Db.insertSubscription, Db.insertMessage, hdb]

/-- **C2**: on a subscribe request whose `plan_id` is none of
`"monthly"`, `"2months"`, `"annual"`, the P0 variant responds 400
leaving the environment untouched (no database call), while the Ix
variant silently applies the monthly rule — it inserts a subscription
with `end_date = start_date` plus one calendar month — and responds
success. -/
theorem subscribe_unknown_plan_divergence (req : SubscribeRequest) (ci : CustomerInfo)
    (now : JSDate) (uuid : String) (e : Env)
    (hp1 : req.plan_id ≠ "monthly") (hp2 : req.plan_id ≠ "2months")
    (hp3 : req.plan_id ≠ "annual")
    (hci : req.customer_info = some ci) (hs : e.schedule = [])
    (hdb : e.db.subscriptions = []) :
    ((subscribe_P0 req now uuid e).1.status = 400 ∧
      (subscribe_P0 req now uuid e).2 = e) ∧
    ((subscribe_Ix req now e).2.db.subscriptions =
        [⟨req.user_id, req.plan_id, now, addMonths now 1, "active"⟩] ∧
      (subscribe_Ix req now e).1 =
        jsonOk (.obj [("success", .bool true), ("saved_to_db", .bool true)])) := by
  constructor
  · unfold subscribe_P0
    split
    · exact ⟨rfl, rfl⟩
    · rw [subscribeTerm_P0_eq_none req.plan_id now hp1 hp2 hp3]
      exact ⟨rfl, rfl⟩
  · constructor <;>
      simp [subscribe_Ix, hci, dbCall, hs, Db.insertSubscription, Db.insertMessage,
        hdb, subscribeTerm_Ix, hp1, hp2, hp3]

/-- Witness for `subscribe_unknown_plan_divergence` at
`plan_id = "weekly"`. -/
theorem subscribe_unknown_plan_divergence_witness :
    ((subscribe_P0 ⟨"u", "weekly", "p", some ⟨"A", "a@b.com", ""⟩⟩ ⟨2024, 0, 31⟩ "id-1"
        ⟨⟨[], [], [], []⟩, [], 0⟩).1.status = 400 ∧
      (subscribe_P0 ⟨"u", "weekly", "p", some ⟨"A", "a@b.com", ""⟩⟩ ⟨2024, 0, 31⟩ "id-1"
        ⟨⟨[], [], [], []⟩, [], 0⟩).2 = ⟨⟨[], [], [], []⟩, [], 0⟩) ∧
    ((subscribe_Ix ⟨"u", "weekly", "p", some ⟨"A", "a@b.com", ""⟩⟩ ⟨2024, 0, 31⟩
        ⟨⟨[], [], [], []⟩, [], 0⟩).2.db.subscriptions =
        [⟨"u", "weekly", ⟨2024, 0, 31⟩, addMonths ⟨2024, 0, 31⟩ 1, "active"⟩] ∧
      (subscribe_Ix ⟨"u", "weekly", "p", some ⟨"A", "a@b.com", ""⟩⟩ ⟨2024, 0, 31⟩
        ⟨⟨[], [], [], []⟩, [], 0⟩).1 =
        jsonOk (.obj [("success", .bool true), ("saved_to_db", .bool true)])) :=
  subscribe_unknown_plan_divergence ⟨"u", "weekly", "p", some ⟨"A", "a@b.com", ""⟩⟩
    ⟨"A", "a@b.com", ""⟩ ⟨2024, 0, 31⟩ "id-1" ⟨⟨[], [], [], []⟩, [], 0⟩
    (by decide) (by decide) (by decide) rfl rfl rfl

/-- **C3** counterexample: in the Ix variant a subscribe request with an
empty `plan_id` and a `customer_info` object whose `fullname` and
`email` are empty is *not* rejected — the handler responds 200 and makes
two database calls.  The claim "every subscribe request that lacks a
non-empty plan_id, or lacks … non-empty fullname and email, is rejected
with a 400 … and no database operation is attempted" is therefore false
for `src/index.js`. -/
theorem subscribe_validation_counterexample :
    (subscribe_Ix ⟨"u", "", "", some ⟨"", "", ""⟩⟩ ⟨2024, 0, 31⟩
      ⟨⟨[], [], [], []⟩, [], 0⟩).1.status = 200 ∧
    (subscribe_Ix ⟨"u", "", "", some ⟨"", "", ""⟩⟩ ⟨2024, 0, 31⟩
      ⟨⟨[], [], [], []⟩, [], 0⟩).2.calls = 2 := by
  constructor <;> rfl

/-- **C3** amended: the P0 variant rejects every subscribe request
lacking a non-empty `plan_id`, or a `customer_info` with non-empty
`fullname` and `email`, with a 400 and an untouched environment (zero
database calls); the Ix variant does so only when `customer_info` is
absent altogether. -/
theorem subscribe_validation_amended (req : SubscribeRequest) (now : JSDate)
    (uuid : String) (e : Env)
    (hv : req.plan_id = "" ∨ ciFullname req.customer_info = "" ∨
      ciEmail req.customer_info = "") :
    ((subscribe_P0 req now uuid e).1.status = 400 ∧
      (subscribe_P0 req now uuid e).2 = e) ∧
    (req.customer_info = none →
      (subscribe_Ix req now e).1.status = 400 ∧ (subscribe_Ix req now e).2 = e) := by
  constructor
  · rw [subscribe_P0, if_pos hv]
    exact ⟨rfl, rfl⟩
  · intro hnone
    rw [subscribe_Ix, hnone]
    exact ⟨rfl, rfl⟩

/-- Witness for `subscribe_validation_amended`: missing
`customer_info`. -/
theorem subscribe_validation_amended_witness :
    ((subscribe_P0 ⟨"u", "monthly", "p", none⟩ ⟨2024, 0, 31⟩ "id-1"
        ⟨⟨[], [], [], []⟩, [], 0⟩).1.status = 400 ∧
      (subscribe_P0 ⟨"u", "monthly", "p", none⟩ ⟨2024, 0, 31⟩ "id-1"
        ⟨⟨[], [], [], []⟩, [], 0⟩).2 = ⟨⟨[], [], [], []⟩, [], 0⟩) ∧
    ((subscribe_Ix ⟨"u", "monthly", "p", none⟩ ⟨2024, 0, 31⟩
        ⟨⟨[], [], [], []⟩, [], 0⟩).1.status = 400 ∧
      (subscribe_Ix ⟨"u", "monthly", "p", none⟩ ⟨2024, 0, 31⟩
        ⟨⟨[], [], [], []⟩, [], 0⟩).2 = ⟨⟨[], [], [], []⟩, [], 0⟩) :=
  ⟨(subscribe_validation_amended ⟨"u", "monthly", "p", none⟩ ⟨2024, 0, 31⟩ "id-1"
      ⟨⟨[], [], [], []⟩, [], 0⟩ (Or.inr (Or.inl rfl))).1,
    (subscribe_validation_amended ⟨"u", "monthly", "p", none⟩ ⟨2024, 0, 31⟩ "id-1"
      ⟨⟨[], [], [], []⟩, [], 0⟩ (Or.inr (Or.inl rfl))).2 rfl⟩

/-- **C5** counterexample: in the Ix variant a fully valid, fully
successful subscribe responds with `{success:true, saved_to_db:true}` —
there is no `subscription` object in the body at all.  The claimed
response shape is therefore false for `src/index.js`. -/
theorem subscribe_response_shape_counterexample :
    (subscribe_Ix ⟨"u", "monthly", "paypal", some ⟨"A", "a@b.com", ""⟩⟩ ⟨2024, 0, 31⟩
        ⟨⟨[], [], [], []⟩, [], 0⟩).1.status = 200 ∧
    (subscribe_Ix ⟨"u", "monthly", "paypal", some ⟨"A", "a@b.com", ""⟩⟩ ⟨2024, 0, 31⟩
        ⟨⟨[], [], [], []⟩, [], 0⟩).1.body =
      .obj [("success", .bool true), ("saved_to_db", .bool true)] ∧
    (subscribe_Ix ⟨"u", "monthly", "paypal", some ⟨"A", "a@b.com", ""⟩⟩ ⟨2024, 0, 31⟩
        ⟨⟨[], [], [], []⟩, [], 0⟩).1.body.field "subscription" = none :=
  ⟨rfl, rfl, rfl⟩

/-- **C5** amended: in the P0 variant a successful `POST /subscribe`
responds with `{success:true, subscription:{plan, start_date, end_date}}`
where `plan` is the requested `plan_id` and `start_date`/`end_date` are
the computed term; the Ix variant responds `{success:true,
saved_to_db:true}` with no `subscription` object
(`subscribe_response_shape_counterexample`). -/
theorem subscribe_response_shape_amended (req : SubscribeRequest) (now : JSDate)
    (uuid : String) (e : Env) (t : JSDate × JSDate)
    (hv : ¬ (req.plan_id = "" ∨ ciFullname req.customer_info = "" ∨
      ciEmail req.customer_info = ""))
    (ht : subscribeTerm_P0 req.plan_id now = some t)
    (hs : e.schedule = []) :
    (subscribe_P0 req now uuid e).1 =
      jsonOk (.obj [("success", .bool true),
        ("subscription", .obj [("plan", .str req.plan_id),
          ("start_date", .str (isoDate t.1)), ("end_date", .str (isoDate t.2))])]) ∧
    t.1 = now ∧ subscribeTerm_Ix req.plan_id now = t := by
  refine ⟨?_, ?_, term_Ix_of_P0 req.plan_id now t ht⟩
  · rw [subscribe_P0, if_neg hv, ht]
    simp [dbCall, hs, jsonOk]
  · rw [← term_Ix_of_P0 req.plan_id now t ht, subscribeTerm_Ix]

/-- Witness for `subscribe_response_shape_amended`: "monthly" on
2024-01-31. -/
theorem subscribe_response_shape_amended_witness :
    (subscribe_P0 ⟨"u", "monthly", "p", some ⟨"A", "a@b.com", ""⟩⟩ ⟨2024, 0, 31⟩ "id-1"
        ⟨⟨[], [], [], []⟩, [], 0⟩).1 =
      jsonOk (.obj [("success", .bool true),
        ("subscription", .obj [("plan", .str "monthly"),
          ("start_date", .str (isoDate (⟨2024, 0, 31⟩ : JSDate))),
          ("end_date", .str (isoDate (addMonths ⟨2024, 0, 31⟩ 1)))])]) ∧
    (⟨2024, 0, 31⟩ : JSDate) = ⟨2024, 0, 31⟩ ∧
    subscribeTerm_Ix "monthly" ⟨2024, 0, 31⟩ =
      (⟨2024, 0, 31⟩, addMonths ⟨2024, 0, 31⟩ 1) :=
  subscribe_response_shape_amended ⟨"u", "monthly", "p", some ⟨"A", "a@b.com", ""⟩⟩
    ⟨2024, 0, 31⟩ "id-1" ⟨⟨[], [], [], []⟩, [], 0⟩
    (⟨2024, 0, 31⟩, addMonths ⟨2024, 0, 31⟩ 1) (by decide) rfl rfl

/-- **C6** counterexample: in the Ix variant the subscribe handler
persists whatever `user_id` the caller put in the request body — here
`"caller-chosen-id"` — so the `user_id` is *not* generated by the server
per request.  (The `status` is still `"active"`.) -/
theorem subscription_user_id_counterexample :
    (subscribe_Ix ⟨"caller-chosen-id", "monthly", "p", some ⟨"A", "a@b.com", ""⟩⟩
        ⟨2024, 0, 31⟩ ⟨⟨[], [], [], []⟩, [], 0⟩).2.db.subscriptions =
      [⟨"caller-chosen-id", "monthly", ⟨2024, 0, 31⟩, ⟨2024, 2, 2⟩, "active"⟩] :=
  rfl

/-- **C6** amended: every subscription row is created with `status =
"active"` in both variants; the `user_id` is the server-generated
`crypto.randomUUID()` value (independent of the request) only in the P0
variant — the Ix variant persists the caller-supplied
`req.body.user_id`. -/
theorem subscription_user_id_amended (req : SubscribeRequest) (ci : CustomerInfo)
    (now : JSDate) (uuid : String) (e : Env) (t : JSDate × JSDate)
    (hci : req.customer_info = some ci)
    (hv : ¬ (req.plan_id = "" ∨ ciFullname req.customer_info = "" ∨
      ciEmail req.customer_info = ""))
    (ht : subscribeTerm_P0 req.plan_id now = some t)
    (hs : e.schedule = []) (hdb : e.db.subscriptions = []) :
    (subscribe_P0 req now uuid e).2.db.subscriptions =
      [⟨uuid, req.plan_id, t.1, t.2, "active"⟩] ∧
    (subscribe_Ix req now e).2.db.subscriptions =
      [⟨req.user_id, req.plan_id, t.1, t.2, "active"⟩] := by
  have hIx := term_Ix_of_P0 req.plan_id now t ht
  constructor
  · rw [subscribe_P0, if_neg hv, ht]
    simp [dbCall, hs, Db.insertSubscription, Db.insertMessage, hdb]
  · simp [subscribe_Ix, hci, dbCall, hs, Db.insertSubscription, Db.insertMessage, hdb, hIx]

/-- Witness for `subscription_user_id_amended`. -/
theorem subscription_user_id_amended_witness :
    (subscribe_P0 ⟨"body-id", "monthly", "p", some ⟨"A", "a@b.com", ""⟩⟩ ⟨2024, 0, 31⟩
        "gen-uuid" ⟨⟨[], [], [], []⟩, [], 0⟩).2.db.subscriptions =
      [⟨"gen-uuid", "monthly", ⟨2024, 0, 31⟩, addMonths ⟨2024, 0, 31⟩ 1, "active"⟩] ∧
    (subscribe_Ix ⟨"body-id", "monthly", "p", some ⟨"A", "a@b.com", ""⟩⟩ ⟨2024, 0, 31⟩
        ⟨⟨[], [], [], []⟩, [], 0⟩).2.db.subscriptions =
      [⟨"body-id", "monthly", ⟨2024, 0, 31⟩, addMonths ⟨2024, 0, 31⟩ 1, "active"⟩] :=
  subscription_user_id_amended ⟨"body-id", "monthly", "p", some ⟨"A", "a@b.com", ""⟩⟩
    ⟨"A", "a@b.com", ""⟩ ⟨2024, 0, 31⟩ "gen-uuid" ⟨⟨[], [], [], []⟩, [], 0⟩
    (⟨2024, 0, 31⟩, addMonths ⟨2024, 0, 31⟩ 1) rfl (by decide) rfl rfl rfl

/-- **C4** counterexample: in the Ix variant, a database exception
raised during `GET /plans` reaches the catch block, which responds 500
with `{error: err.message}` — the response body *is* the underlying
error's message (`"boom"`), contradicting "the response body never
contains the underlying error object or its message". -/
theorem db_error_leak_counterexample :
    (plans_Ix ⟨⟨[], [], [], []⟩, [.raise "boom"], 0⟩).1.status = 500 ∧
    (plans_Ix ⟨⟨[], [], [], []⟩, [.raise "boom"], 0⟩).1.body =
      .obj [("error", .str "boom")] ∧
    (plans_Ix ⟨⟨[], [], [], []⟩, [.raise "boom"], 0⟩).1.body.field "error" =
      some (.str "boom") :=
  ⟨rfl, rfl, rfl⟩

/-- **C4** amended: whenever the database client returns an error result
or raises during any operation, the handler responds 500 and never
throws unhandled (every handler is a total function into responses); the
500 body carries a generic message in every P0 handler, in Ix `/contact`,
and on Ix error *results* — but the Ix `/plans` and `/subscribe` catch
blocks put the raised exception's message into the response body
(`db_error_leak_counterexample`). -/
theorem db_error_handling_amended (m : String) (db : Db) (c : Nat)
    (req : SubscribeRequest) (ci : CustomerInfo) (now : JSDate) (uuid : String)
    (cr : ContactRequest) (genId : String)
    (hv : ¬ (req.plan_id = "" ∨ ciFullname req.customer_info = "" ∨
      ciEmail req.customer_info = ""))
    (ht : (subscribeTerm_P0 req.plan_id now).isSome)
    (hci : req.customer_info = some ci)
    (hn : cr.name ≠ "") (he : cr.email ≠ "") (hm : cr.message ≠ "")
    (hem : emailTest cr.email = true) :
    (plans_Ix ⟨db, [.err m], c⟩).1 =
      ⟨500, .obj [("error", .str "Could not fetch plans.")]⟩ ∧
    (plans_Ix ⟨db, [.raise m], c⟩).1 = ⟨500, .obj [("error", .str m)]⟩ ∧
    (subscribe_P0 req now uuid ⟨db, [.err m], c⟩).1 =
      ⟨500, .obj [("success", .bool false), ("error", .str "Subscription failed")]⟩ ∧
    (subscribe_P0 req now uuid ⟨db, [.raise m], c⟩).1 =
      ⟨500, .obj [("success", .bool false), ("error", .str "Subscription failed")]⟩ ∧
    (subscribe_P0 req now uuid ⟨db, [.ok, .err m], c⟩).1 =
      ⟨500, .obj [("success", .bool false), ("error", .str "Subscription failed")]⟩ ∧
    (subscribe_P0 req now uuid ⟨db, [.ok, .raise m], c⟩).1 =
      ⟨500, .obj [("success", .bool false), ("error", .str "Subscription failed")]⟩ ∧
    (subscribe_Ix req now ⟨db, [.raise m], c⟩).1 = ⟨500, .obj [("error", .str m)]⟩ ∧
    (subscribe_Ix req now ⟨db, [.err m], c⟩).1 =
      ⟨500, .obj [("error", .str "Failed to save data to database.")]⟩ ∧
    (contact_Ix cr genId now ⟨db, [.err m], c⟩).1 =
      ⟨500, .obj [("success", .bool false),
        ("error", .str "Failed to save contact message to database")]⟩ ∧
    (contact_Ix cr genId now ⟨db, [.raise m], c⟩).1 =
      ⟨500, .obj [("success", .bool false),
        ("error", .str "Server error processing contact form")]⟩ ∧
    (contact_P0 cr ⟨db, [.err m], c⟩).1 =
      ⟨500, .obj [("success", .bool false), ("error", .str "Unable to send message")]⟩ ∧
    (contact_P0 cr ⟨db, [.raise m], c⟩).1 =
      ⟨500, .obj [("success", .bool false), ("error", .str "Unable to send message")]⟩ := by
  obtain ⟨t, ht⟩ := Option.isSome_iff_exists.mp ht
  have hval : ¬ (cr.name = "" ∨ cr.email = "" ∨ cr.message = "") := by
    simp [hn, he, hm]
  have hregex : ¬ (emailTest cr.email = false) := by simp [hem]
  refine ⟨rfl, rfl, ?_, ?_, ?_, ?_, ?_, ?_, ?_, ?_, ?_, ?_⟩
  · rw [subscribe_P0, if_neg hv, ht]
    simp [dbCall]
  · rw [subscribe_P0, if_neg hv, ht]
    simp [dbCall]
  · rw [subscribe_P0, if_neg hv, ht]
    simp [dbCall]
  · rw [subscribe_P0, if_neg hv, ht]
    simp [dbCall]
  · simp [subscribe_Ix, hci, dbCall]
  · simp [subscribe_Ix, hci, dbCall]
  · rw [contact_Ix, if_neg hval, if_neg hregex]
    simp [dbCall]
  · rw [contact_Ix, if_neg hval, if_neg hregex]
    simp [dbCall]
  · rw [contact_P0, if_neg hval]
    simp [dbCall]
  · rw [contact_P0, if_neg hval]
    simp [dbCall]

/-- Witness for `db_error_handling_amended` at `m = "secret"` with a
valid monthly request and a valid contact request. -/
theorem db_error_handling_amended_witness :
    (plans_Ix ⟨⟨[], [], [], []⟩, [.err "secret"], 0⟩).1 =
      ⟨500, .obj [("error", .str "Could not fetch plans.")]⟩ ∧
    (plans_Ix ⟨⟨[], [], [], []⟩, [.raise "secret"], 0⟩).1 =
      ⟨500, .obj [("error", .str "secret")]⟩ ∧
    (subscribe_P0 ⟨"u", "monthly", "p", some ⟨"A", "a@b.com", ""⟩⟩ ⟨2024, 0, 31⟩ "id-1"
        ⟨⟨[], [], [], []⟩, [.err "secret"], 0⟩).1 =
      ⟨500, .obj [("success", .bool false), ("error", .str "Subscription failed")]⟩ ∧
    (subscribe_P0 ⟨"u", "monthly", "p", some ⟨"A", "a@b.com", ""⟩⟩ ⟨2024, 0, 31⟩ "id-1"
        ⟨⟨[], [], [], []⟩, [.raise "secret"], 0⟩).1 =
      ⟨500, .obj [("success", .bool false), ("error", .str "Subscription failed")]⟩ ∧
    (subscribe_P0 ⟨"u", "monthly", "p", some ⟨"A", "a@b.com", ""⟩⟩ ⟨2024, 0, 31⟩ "id-1"
        ⟨⟨[], [], [], []⟩, [.ok, .err "secret"], 0⟩).1 =
      ⟨500, .obj [("success", .bool false), ("error", .str "Subscription failed")]⟩ ∧
    (subscribe_P0 ⟨"u", "monthly", "p", some ⟨"A", "a@b.com", ""⟩⟩ ⟨2024, 0, 31⟩ "id-1"
        ⟨⟨[], [], [], []⟩, [.ok, .raise "secret"], 0⟩).1 =
      ⟨500, .obj [("success", .bool false), ("error", .str "Subscription failed")]⟩ ∧
    (subscribe_Ix ⟨"u", "monthly", "p", some ⟨"A", "a@b.com", ""⟩⟩ ⟨2024, 0, 31⟩
        ⟨⟨[], [], [], []⟩, [.raise "secret"], 0⟩).1 =
      ⟨500, .obj [("error", .str "secret")]⟩ ∧
    (subscribe_Ix ⟨"u", "monthly", "p", some ⟨"A", "a@b.com", ""⟩⟩ ⟨2024, 0, 31⟩
        ⟨⟨[], [], [], []⟩, [.err "secret"], 0⟩).1 =
      ⟨500, .obj [("error", .str "Failed to save data to database.")]⟩ ∧
    (contact_Ix ⟨"A", "a@b.com", "hello"⟩ "gid" ⟨2024, 0, 31⟩
        ⟨⟨[], [], [], []⟩, [.err "secret"], 0⟩).1 =
      ⟨500, .obj [("success", .bool false),
        ("error", .str "Failed to save contact message to database")]⟩ ∧
    (contact_Ix ⟨"A", "a@b.com", "hello"⟩ "gid" ⟨2024, 0, 31⟩
        ⟨⟨[], [], [], []⟩, [.raise "secret"], 0⟩).1 =
      ⟨500, .obj [("success", .bool false),
        ("error", .str "Server error processing contact form")]⟩ ∧
    (contact_P0 ⟨"A", "a@b.com", "hello"⟩ ⟨⟨[], [], [], []⟩, [.err "secret"], 0⟩).1 =
      ⟨500, .obj [("success", .bool false), ("error", .str "Unable to send message")]⟩ ∧
    (contact_P0 ⟨"A", "a@b.com", "hello"⟩ ⟨⟨[], [], [], []⟩, [.raise "secret"], 0⟩).1 =
      ⟨500, .obj [("success", .bool false), ("error", .str "Unable to send message")]⟩ :=
  db_error_handling_amended "secret" ⟨[], [], [], []⟩ 0
    ⟨"u", "monthly", "p", some ⟨"A", "a@b.com", ""⟩⟩ ⟨"A", "a@b.com", ""⟩ ⟨2024, 0, 31⟩
    "id-1" ⟨"A", "a@b.com", "hello"⟩ "gid" (by decide) (by decide) rfl
    (by decide) (by decide) (by decide) (by decide)

/-- **C7**: on a contact request whose `name`, `email`, `message` are
all non-empty but whose `email` fails the simple pattern, the
email-validating Ix variant responds 400 touching nothing, while the
non-validating P0 variant inserts the message and responds success. -/
theorem contact_invalid_email_divergence (cr : ContactRequest) (genId : String)
    (now : JSDate) (e e2 : Env)
    (hn : cr.name ≠ "") (he : cr.email ≠ "") (hm : cr.message ≠ "")
    (hbad : emailTest cr.email = false)
    (hs : e2.schedule = []) (hdb : e2.db.contact_messages = []) :
    ((contact_Ix cr genId now e).1.status = 400 ∧ (contact_Ix cr genId now e).2 = e) ∧
    ((contact_P0 cr e2).1 = jsonOk (.obj [("success", .bool true)]) ∧
      (contact_P0 cr e2).2.db.contact_messages = [⟨cr.name, cr.email, cr.message⟩]) := by
  have hval : ¬ (cr.name = "" ∨ cr.email = "" ∨ cr.message = "") := by
    simp [hn, he, hm]
  constructor
  · rw [contact_Ix, if_neg hval, if_pos hbad]
    exact ⟨rfl, rfl⟩
  · rw [contact_P0, if_neg hval]
    constructor
    · simp [dbCall, hs, jsonOk]
    · simp [dbCall, hs, Db.insertContactMessage, hdb]

/-- Witness for `contact_invalid_email_divergence` at
`email = "not-an-email"`. -/
theorem contact_invalid_email_divergence_witness :
    ((contact_Ix ⟨"A", "not-an-email", "hi"⟩ "gid" ⟨2024, 0, 31⟩
        ⟨⟨[], [], [], []⟩, [], 0⟩).1.status = 400 ∧
      (contact_Ix ⟨"A", "not-an-email", "hi"⟩ "gid" ⟨2024, 0, 31⟩
        ⟨⟨[], [], [], []⟩, [], 0⟩).2 = ⟨⟨[], [], [], []⟩, [], 0⟩) ∧
    ((contact_P0 ⟨"A", "not-an-email", "hi"⟩ ⟨⟨[], [], [], []⟩, [], 0⟩).1 =
        jsonOk (.obj [("success", .bool true)]) ∧
      (contact_P0 ⟨"A", "not-an-email", "hi"⟩ ⟨⟨[], [], [], []⟩, [], 0⟩).2.db.contact_messages =
        [⟨"A", "not-an-email", "hi"⟩]) :=
  contact_invalid_email_divergence ⟨"A", "not-an-email", "hi"⟩ "gid" ⟨2024, 0, 31⟩
    ⟨⟨[], [], [], []⟩, [], 0⟩ ⟨⟨[], [], [], []⟩, [], 0⟩
    (by decide) (by decide) (by decide) (by decide) rfl rfl

/-- **C8**: the two persistence operations of the subscribe flow are not
atomic.  Concretely: in the P0 variant with schedule `[ok, err]` the
subscription insert succeeds, the message insert fails, the handler
responds 500, and the subscription row stays persisted with no
counterpart message; in the Ix variant with schedule `[err, ok]` the
subscription insert fails, the message insert still runs and succeeds,
the handler responds 500, and the message row stays persisted. -/
theorem subscribe_inserts_not_atomic :
    (subscribe_P0 ⟨"", "monthly", "", some ⟨"A", "a@b.com", ""⟩⟩ ⟨2024, 0, 31⟩ "u-1"
        ⟨⟨[], [], [], []⟩, [.ok, .err "disk full"], 0⟩).1.status = 500 ∧
    (subscribe_P0 ⟨"", "monthly", "", some ⟨"A", "a@b.com", ""⟩⟩ ⟨2024, 0, 31⟩ "u-1"
        ⟨⟨[], [], [], []⟩, [.ok, .err "disk full"], 0⟩).2.db.subscriptions =
      [⟨"u-1", "monthly", ⟨2024, 0, 31⟩, ⟨2024, 2, 2⟩, "active"⟩] ∧
    (subscribe_P0 ⟨"", "monthly", "", some ⟨"A", "a@b.com", ""⟩⟩ ⟨2024, 0, 31⟩ "u-1"
        ⟨⟨[], [], [], []⟩, [.ok, .err "disk full"], 0⟩).2.db.messages = [] ∧
    (subscribe_Ix ⟨"u", "monthly", "p", some ⟨"A", "a@b.com", ""⟩⟩ ⟨2024, 0, 31⟩
        ⟨⟨[], [], [], []⟩, [.err "down", .ok], 0⟩).1.status = 500 ∧
    (subscribe_Ix ⟨"u", "monthly", "p", some ⟨"A", "a@b.com", ""⟩⟩ ⟨2024, 0, 31⟩
        ⟨⟨[], [], [], []⟩, [.err "down", .ok], 0⟩).2.db.subscriptions = [] ∧
    (subscribe_Ix ⟨"u", "monthly", "p", some ⟨"A", "a@b.com", ""⟩⟩ ⟨2024, 0, 31⟩
        ⟨⟨[], [], [], []⟩, [.err "down", .ok], 0⟩).2.db.messages.length = 1 :=
  ⟨rfl, rfl, rfl, rfl, rfl, rfl⟩

/-- **C10**: both variants' `GET /health` handlers perform no database
operation — the environment (database, schedule, call count) is returned
untouched — and always respond 200 with status `"OK"` and the current
server time, whatever the database state or schedule of failures. -/
theorem health_no_db_always_ok (now : JSDate) (e : Env) :
    health_Ix now e =
      (jsonOk (.obj [("status", .str "OK"), ("server_time", .str (isoDate now))]), e) ∧
    health_P0 now e =
      (jsonOk (.obj [("status", .str "OK"), ("server_time", .str (isoDate now))]), e) ∧
    (health_Ix now e).2.calls = e.calls ∧ (health_P0 now e).2.calls = e.calls :=
  ⟨rfl, rfl, rfl, rfl⟩

/-- Witness for `subscription_dates_strict_and_deterministic`: a
"monthly" subscription created on 2024-01-31 by each handler. -/
theorem subscription_dates_witness :
    dateVal (⟨2024, 0, 31⟩ : JSDate) < dateVal (addMonths ⟨2024, 0, 31⟩ 1) ∧
    (subscribe_Ix ⟨"u-ix", "monthly", "paypal", some ⟨"A", "a@b.com", ""⟩⟩
        ⟨2024, 0, 31⟩ ⟨⟨[], [], [], []⟩, [], 0⟩).2.db.subscriptions =
      [⟨"u-ix", "monthly", ⟨2024, 0, 31⟩,
        (subscribeTerm_Ix "monthly" ⟨2024, 0, 31⟩).2, "active"⟩] ∧
    (subscribe_P0 ⟨"", "monthly", "", some ⟨"A", "a@b.com", ""⟩⟩
        ⟨2024, 0, 31⟩ "u-p0" ⟨⟨[], [], [], []⟩, [], 0⟩).2.db.subscriptions =
      [⟨"u-p0", "monthly", ⟨2024, 0, 31⟩, addMonths ⟨2024, 0, 31⟩ 1, "active"⟩] := by
  refine ⟨?_, ?_, ?_⟩
  · exact subscription_dates_strict_and_deterministic.2.1 "monthly" ⟨2024, 0, 31⟩
      (⟨2024, 0, 31⟩, addMonths ⟨2024, 0, 31⟩ 1) rfl
  · exact subscription_dates_strict_and_deterministic.2.2.1
      ⟨"u-ix", "monthly", "paypal", some ⟨"A", "a@b.com", ""⟩⟩ ⟨"A", "a@b.com", ""⟩
      ⟨2024, 0, 31⟩ ⟨⟨[], [], [], []⟩, [], 0⟩ rfl rfl rfl
  · exact subscription_dates_strict_and_deterministic.2.2.2
      ⟨"", "monthly", "", some ⟨"A", "a@b.com", ""⟩⟩ ⟨2024, 0, 31⟩ "u-p0"
      ⟨⟨[], [], [], []⟩, [], 0⟩ (⟨2024, 0, 31⟩, addMonths ⟨2024, 0, 31⟩ 1) rfl
      (by decide) rfl rfl

end Shoplinno
